import Mathlib

/-
  Verification development for the Adaptive-Tab-Bar-Colour browser extension
  (src/scr/background.js).

  The data model and the operations below are a shallow embedding of the
  JavaScript source.  JavaScript numbers are embedded as rationals; colour
  channel values live in [0, 255].  Fallible JavaScript control flow
  (thrown exceptions, `undefined` fall-through) is made explicit with
  `JSOutcome` and `Option`.

  The repository imports two modules that are not part of the source tree,
  `./colour.js` (rgba, dimColour, contrastRatio, relativeLuminance) and
  `./default_values.js` (static colour tables).  Those primitives are
  modelled from the specification, as marked on each definition.
-/

set_option maxHeartbeats 1000000

namespace ATBC

/-- Colour value: red/green/blue channels and an alpha channel, embedded as
rationals.  In-range colours have channels in [0, 255] (spec section 3). -/
structure RGBA where
  r : ℚ
  g : ℚ
  b : ℚ
  a : ℚ
deriving DecidableEq

/-- Modelled from the spec: `relativeLuminance` of the missing `colour.js`.
Linear relative luminance with the standard RGB weights, scaled so that the
result ranges over [0, 255] (the source divides by `255 - relativeLuminance`,
so luminance is on the channel scale). -/
def relativeLuminance (c : RGBA) : ℚ :=
  (2126 * c.r + 7152 * c.g + 722 * c.b) / 10000

/-- Modelled from the spec: `contrastRatio` of the missing `colour.js`.
The WCAG contrast ratio `(L1 + 0.05) / (L2 + 0.05)` with luminances on the
0..255 scale, so the 0.05 offset becomes `0.05 * 255 = 51/4`. -/
def contrastRatioOf (c1 c2 : RGBA) : ℚ :=
  if relativeLuminance c1 > relativeLuminance c2 then
    (relativeLuminance c1 + 51 / 4) / (relativeLuminance c2 + 51 / 4)
  else
    (relativeLuminance c2 + 51 / 4) / (relativeLuminance c1 + 51 / 4)

/-- Modelled from the spec: `dimColour` of the missing `colour.js`.
Linear dimming by a signed magnitude: a positive `d` blends each channel
towards white, a negative `d` scales each channel towards black, `d = 0`
leaves the colour unchanged. -/
def dimColour (c : RGBA) (d : ℚ) : RGBA :=
  if 0 < d then ⟨c.r + d * (255 - c.r), c.g + d * (255 - c.g), c.b + d * (255 - c.b), c.a⟩
  else if d < 0 then ⟨(1 + d) * c.r, (1 + d) * c.g, (1 + d) * c.b, c.a⟩
  else c

/-- Clamp a channel value into [0, 255]. -/
def clampChannel (x : ℚ) : ℚ := max 0 (min 255 x)

/-- Modelled from the spec: the `rgba` constructor of the missing
`colour.js`, which normalises a channel tuple into a colour value whose
channels lie in [0, 255]. -/
def rgba (c : RGBA) : RGBA := ⟨clampChannel c.r, clampChannel c.g, clampChannel c.b, c.a⟩

/-- Pure white, `[255, 255, 255, 1]` in the source. -/
def white : RGBA := ⟨255, 255, 255, 1⟩

/-- Pure black, `[0, 0, 0, 1]` in the source. -/
def black : RGBA := ⟨0, 0, 0, 1⟩

/-- All channels of the colour are in range (spec section 3). -/
def InRange (c : RGBA) : Prop :=
  0 ≤ c.r ∧ c.r ≤ 255 ∧ 0 ≤ c.g ∧ c.g ≤ 255 ∧ 0 ≤ c.b ∧ c.b ≤ 255

instance (c : RGBA) : Decidable (InRange c) := by
  unfold InRange
  infer_instance

/-- The preference bundle read by `background.js` (the fields of `pref`
that the embedded functions consult). -/
structure Prefs where
  allowDarkLight : Bool
  minContrast_light : ℚ
  minContrast_dark : ℚ
  dynamic : Bool
  noThemeColour : Bool
  tabbar : ℚ
  tabSelected : ℚ
  toolbar : ℚ
  toolbarBorder : ℚ
  toolbarField : ℚ
  toolbarFieldBorder : ℚ
  toolbarFieldOnFocus : ℚ
  sidebar : ℚ
  sidebarBorder : ℚ
  popup : ℚ
  popupBorder : ℚ
  customRule : List (String × String)
deriving DecidableEq

/-- The process-wide `current` object of `background.js`: the resolved
scheme string and the preference-dependent home/fallback colours. -/
structure Current where
  scheme : String
  homeBackground_light : RGBA
  homeBackground_dark : RGBA
  fallbackColour_light : RGBA
  fallbackColour_dark : RGBA
deriving DecidableEq

/-- `current.reversedScheme`: `this.scheme === "light" ? "dark" : "light"`. -/
def reversedScheme (s : String) : String := if s = "light" then "dark" else "light"

/-- Embeds `contrastCorrection` (background.js lines 288-306).  The result is
`none` exactly when control falls past the final `else if` (the implicit
`undefined` return of the JavaScript function). -/
def contrastCorrection (pref : Prefs) (cur : Current) (colour : RGBA) : Option (RGBA × String) :=
  -- eligibility_light && (light || (dark && allowDarkLight))
  if pref.minContrast_light < contrastRatioOf colour (rgba black) ∧
      (cur.scheme = "light" ∨ (cur.scheme = "dark" ∧ pref.allowDarkLight = true)) then
    some (colour, "light")
  -- eligibility_dark && (dark || (light && allowDarkLight))
  else if pref.minContrast_dark < contrastRatioOf colour (rgba white) ∧
      (cur.scheme = "dark" ∨ (cur.scheme = "light" ∧ pref.allowDarkLight = true)) then
    some (colour, "dark")
  else if cur.scheme = "light" then
    some (rgba (dimColour colour
      (((pref.minContrast_light / contrastRatioOf colour (rgba black) - 1) * relativeLuminance colour) /
        (255 - relativeLuminance colour))), "light")
  else if cur.scheme = "dark" then
    some (rgba (dimColour colour (contrastRatioOf colour (rgba white) / pref.minContrast_dark - 1)), "dark")
  else none

/-- The colour codes of the `colourCode` lookup table (background.js lines 41-64). -/
inductive ColourToken where
  | HOME
  | FALLBACK
  | PLAINTEXT
  | SYSTEM
  | ADDON
  | PDFVIEWER
  | IMAGEVIEWER
  | DEFAULT
deriving DecidableEq

/-- A classification result: either a literal colour or a colour code string
(`typeof colour === "string"` in `setFrameColour`). -/
inductive ColourInput where
  | token (t : ColourToken)
  | literal (c : RGBA)
deriving DecidableEq

/-- Embeds the `colourCode` lookup table (background.js lines 41-64), keyed by
the scheme string; `none` is the JavaScript `undefined` entry
(IMAGEVIEWER has no light colour).  HOME and FALLBACK read the dynamic
getters on `current`. -/
def colourCode (cur : Current) (t : ColourToken) (s : String) : Option RGBA :=
  match t with
  | .HOME => if s = "light" then some cur.homeBackground_light
      else if s = "dark" then some cur.homeBackground_dark else none
  | .FALLBACK => if s = "light" then some cur.fallbackColour_light
      else if s = "dark" then some cur.fallbackColour_dark else none
  | .PLAINTEXT => if s = "light" then some (rgba ⟨236, 236, 236, 1⟩)
      else if s = "dark" then some (rgba ⟨50, 50, 50, 1⟩) else none
  | .SYSTEM => if s = "light" then some (rgba ⟨255, 255, 255, 1⟩)
      else if s = "dark" then some (rgba ⟨30, 30, 30, 1⟩) else none
  | .ADDON => if s = "light" then some (rgba ⟨236, 236, 236, 1⟩)
      else if s = "dark" then some (rgba ⟨50, 50, 50, 1⟩) else none
  | .PDFVIEWER => if s = "light" then some (rgba ⟨249, 249, 250, 1⟩)
      else if s = "dark" then some (rgba ⟨56, 56, 61, 1⟩) else none
  | .IMAGEVIEWER => if s = "light" then none
      else if s = "dark" then some (rgba ⟨33, 33, 33, 1⟩) else none
  | .DEFAULT => if s = "light" then some (rgba ⟨255, 255, 255, 1⟩)
      else if s = "dark" then some (rgba ⟨28, 27, 34, 1⟩) else none

/-- The arguments `setFrameColour` hands to `applyTheme`, instrumented with a
flag recording whether the colour passed through `contrastCorrection`. -/
structure AppliedColour where
  colour : RGBA
  scheme : String
  viaCorrection : Bool
deriving DecidableEq

/-- Whether a `setFrameColour` outcome passed through `contrastCorrection`. -/
def usedCorrection (o : Option AppliedColour) : Bool :=
  match o with
  | some ap => ap.viaCorrection
  | none => false

/-- Embeds `setFrameColour` (background.js lines 314-327), reduced to the
colour/scheme pair passed on to `applyTheme`.  The result is `none` when
`applyTheme` would receive an `undefined` colour or when `contrastCorrection`
returned `undefined` (impossible for a light/dark scheme). -/
def setFrameColour (pref : Prefs) (cur : Current) : ColourInput → Option AppliedColour
  | .token t =>
    match colourCode cur t cur.scheme with
    | some c => some ⟨c, cur.scheme, false⟩
    | none =>
      -- else if (colourCode[colour][current.reversedScheme] && pref.allowDarkLight)
      match colourCode cur t (reversedScheme cur.scheme), pref.allowDarkLight with
      | some c, true => some ⟨c, reversedScheme cur.scheme, false⟩
      | _, _ => (colourCode cur .FALLBACK cur.scheme).map (fun c => ⟨c, cur.scheme, false⟩)
  | .literal c =>
    (contrastCorrection pref cur c).map (fun q => ⟨q.1, q.2, true⟩)

/-- A single entry of the generated theme: a dimmed variant of the frame
colour, or one of the fixed CSS colour strings of the source. -/
inductive ThemeValue where
  | dimmed (c : RGBA)
  | fixed (s : String)
deriving DecidableEq

/-- The `colors` object plus the two `properties` fields built by
`applyTheme` (background.js lines 336-422). -/
structure ThemeColours where
  frame : ThemeValue
  frame_inactive : ThemeValue
  tab_selected : ThemeValue
  ntp_background : ThemeValue
  toolbar : ThemeValue
  toolbar_top_separator : ThemeValue
  toolbar_bottom_separator : ThemeValue
  toolbar_field : ThemeValue
  toolbar_field_border : ThemeValue
  toolbar_field_focus : ThemeValue
  toolbar_field_border_focus : ThemeValue
  sidebar : ThemeValue
  sidebar_border : ThemeValue
  popup : ThemeValue
  popup_border : ThemeValue
  tab_background_text : ThemeValue
  tab_loading : ThemeValue
  tab_line : ThemeValue
  ntp_text : ThemeValue
  toolbar_text : ThemeValue
  toolbar_field_text : ThemeValue
  popup_text : ThemeValue
  sidebar_text : ThemeValue
  button_background_hover : ThemeValue
  button_background_active : ThemeValue
  icons : ThemeValue
  color_scheme : String
  content_color_scheme : String
deriving DecidableEq

/-- The light-scheme theme built by `applyTheme` (background.js lines 337-379). -/
def lightThemeColours (pref : Prefs) (colour : RGBA) : ThemeColours :=
  { frame := .dimmed (dimColour colour (-pref.tabbar * 1.5))
    frame_inactive := .dimmed (dimColour colour (-pref.tabbar * 1.5))
    tab_selected := .dimmed (dimColour colour (-pref.tabSelected * 1.5))
    ntp_background := .dimmed (dimColour colour 0)
    toolbar := .dimmed (dimColour colour (-pref.toolbar * 1.5))
    toolbar_top_separator := .fixed "rgba(0, 0, 0, 0)"
    toolbar_bottom_separator := .dimmed (dimColour colour ((-pref.toolbarBorder - pref.toolbar) * 1.5))
    toolbar_field := .dimmed (dimColour colour (-pref.toolbarField * 1.5))
    toolbar_field_border := .fixed "rgba(0, 0, 0, 0)"
    toolbar_field_focus := .dimmed (dimColour colour (-pref.toolbarFieldOnFocus * 1.5))
    toolbar_field_border_focus := .fixed "rgb(130, 180, 245)"
    sidebar := .dimmed (dimColour colour (-pref.sidebar * 1.5))
    sidebar_border := .dimmed (dimColour colour ((-pref.sidebar - pref.sidebarBorder) * 1.5))
    popup := .dimmed (dimColour colour (-pref.popup * 1.5))
    popup_border := .dimmed (dimColour colour ((-pref.popup - pref.popupBorder) * 1.5))
    tab_background_text := .fixed "rgb(30, 30, 30)"
    tab_loading := .fixed "rgba(0, 0, 0, 0)"
    tab_line := .fixed "rgba(0, 0, 0, 0)"
    ntp_text := .fixed "rgb(0, 0, 0)"
    toolbar_text := .fixed "rgb(0, 0, 0)"
    toolbar_field_text := .fixed "rgba(0, 0, 0)"
    popup_text := .fixed "rgb(0, 0, 0)"
    sidebar_text := .fixed "rgb(0, 0, 0)"
    button_background_hover := .fixed "rgba(0, 0, 0, 0.10)"
    button_background_active := .fixed "rgba(0, 0, 0, 0.15)"
    icons := .fixed "rgb(30, 30, 30)"
    color_scheme := "system"
    content_color_scheme := "system" }

/-- The dark-scheme theme built by `applyTheme` (background.js lines 380-421). -/
def darkThemeColours (pref : Prefs) (colour : RGBA) : ThemeColours :=
  { frame := .dimmed (dimColour colour pref.tabbar)
    frame_inactive := .dimmed (dimColour colour pref.tabbar)
    tab_selected := .dimmed (dimColour colour pref.tabSelected)
    ntp_background := .dimmed (dimColour colour 0)
    toolbar := .dimmed (dimColour colour pref.toolbar)
    toolbar_top_separator := .fixed "rgba(0, 0, 0, 0)"
    toolbar_bottom_separator := .dimmed (dimColour colour (pref.toolbarBorder + pref.toolbar))
    toolbar_field := .dimmed (dimColour colour pref.toolbarField)
    toolbar_field_border := .dimmed (dimColour colour pref.toolbarFieldBorder)
    toolbar_field_focus := .dimmed (dimColour colour pref.toolbarFieldOnFocus)
    toolbar_field_border_focus := .fixed "rgb(70, 118, 160)"
    sidebar := .dimmed (dimColour colour pref.sidebar)
    sidebar_border := .dimmed (dimColour colour (pref.sidebar + pref.sidebarBorder))
    popup := .dimmed (dimColour colour pref.popup)
    popup_border := .dimmed (dimColour colour (pref.popup + pref.popupBorder))
    tab_background_text := .fixed "rgb(225, 225, 225)"
    tab_loading := .fixed "rgba(0, 0, 0, 0)"
    tab_line := .fixed "rgba(0, 0, 0, 0)"
    ntp_text := .fixed "rgb(255, 255, 255)"
    toolbar_text := .fixed "rgb(255, 255, 255)"
    toolbar_field_text := .fixed "rgb(255, 255, 255)"
    popup_text := .fixed "rgb(225, 225, 225)"
    sidebar_text := .fixed "rgb(225, 225, 225)"
    button_background_hover := .fixed "rgba(255, 255, 255, 0.10)"
    button_background_active := .fixed "rgba(255, 255, 255, 0.15)"
    icons := .fixed "rgb(225, 225, 225)"
    color_scheme := "system"
    content_color_scheme := "system" }

/-- Embeds `applyTheme` (background.js lines 336-422): builds the theme for
the given scheme string; for any other string the function silently does
nothing (`none`). -/
def applyTheme (pref : Prefs) (colour : RGBA) (colourScheme : String) : Option ThemeColours :=
  if colourScheme = "light" then some (lightThemeColours pref colour)
  else if colourScheme = "dark" then some (darkThemeColours pref colour)
  else none

/-- Embeds `getAboutPageColour` (background.js lines 156-164).  The
`default_aboutPageColour` table lives in the missing `default_values.js`, so
it is passed as an abstract per-pathname, per-scheme partial map (modelled
from the spec, section 4.2 step 3). -/
def getAboutPageColour (pref : Prefs) (cur : Current)
    (table : String → String → Option RGBA) (pathname : String) : ColourInput :=
  match table pathname cur.scheme with
  | some c => .literal (rgba c)
  | none =>
    match table pathname (reversedScheme cur.scheme), pref.allowDarkLight with
    | some c, true => .literal (rgba c)
    | _, _ => .token .DEFAULT

/-- Result of a JavaScript computation: a value, or a thrown exception. -/
inductive JSOutcome (α : Type) where
  | ok (v : α)
  | thrown (e : String)
deriving DecidableEq

/-- Hostname view of a parsed URL. -/
structure URLRec where
  hostname : String
deriving DecidableEq

/-- Split `scheme://rest` at the first `://`. -/
def splitScheme : List Char → Option (List Char × List Char)
  | [] => none
  | ch :: rest =>
    if ch = ':' then
      match rest with
      | '/' :: '/' :: tail => some ([], tail)
      | _ => none
    else
      match splitScheme rest with
      | some (sch, tail) => some (ch :: sch, tail)
      | none => none

/-- Modelled from the spec: the platform `new URL(...)` constructor (an
external collaborator of the source), restricted to what the embedding
needs — it either throws (here: `none`) on a string without a
`scheme://host` shape, or yields the hostname. -/
def parseURL (url : String) : Option URLRec :=
  match splitScheme url.toList with
  | none => none
  | some (sch, rest) =>
    if sch = [] then none
    else
      match rest.takeWhile (fun ch => ¬(ch = '/' ∨ ch = '?' ∨ ch = ':' ∨ ch = '#')) with
      | [] => none
      | host => some ⟨String.mk host⟩

/-- Models JavaScript `String.prototype.startsWith`. -/
def strStartsWith (s p : String) : Bool := List.isPrefixOf p.toList s.toList

/-- Models JavaScript `String.prototype.endsWith`. -/
def strEndsWith (s p : String) : Bool := List.isSuffixOf p.toList s.toList

/-- The regular-expression syntax characters of JavaScript patterns:
backslash, caret, dollar, dot, pipe, question mark, star, plus,
parentheses, square brackets and curly brackets. -/
def regexMetaChars : List Char := "\\^$.|?*+()[]\x7b\x7d".toList

/-- The string contains no regular-expression syntax character, so a
pattern interpolating it matches it literally. -/
def regexMetaFree (s : String) : Bool :=
  s.toList.all (fun ch => !(regexMetaChars.contains ch))

/-- The literal reading of the source's PLAINTEXT test for a title free of
regular-expression metacharacters: the pattern `https?:\/\/<title>$` is
anchored only at the end, so it holds exactly when the URL ends with
`http://` or `https://` followed by the title. -/
def literalRegExpTest (url title : String) : Bool :=
  strEndsWith url ("http://" ++ title) || strEndsWith url ("https://" ++ title)

/-- Modelled from the spec: the platform regular-expression engine (an
external collaborator), as used by the source's
`url.match(new RegExp("https?:\\/\\/" + tab.title + "$"))`.  `test url
title` is the truth of that match, or the SyntaxError thrown by
`new RegExp` when the interpolated title makes the pattern invalid.  Only
the behaviour for titles free of regular-expression metacharacters is
pinned down (`meta_free_spec`): there the title is matched literally and
the pattern is anchored only at the end.  For titles containing
metacharacters the match result, or the throw, stays abstract. -/
structure RegExpSemantics where
  test : String → String → JSOutcome Bool
  meta_free_spec : ∀ url title, regexMetaFree title = true →
    test url title = .ok (literalRegExpTest url title)

/-- One admissible instance of the platform engine: it extends the pinned
literal suffix test to every title. -/
def literalRegExp : RegExpSemantics :=
  ⟨fun url title => .ok (literalRegExpTest url title), fun _ _ _ => rfl⟩

/-- One iteration of the custom-rule `for (const site in pref.customRule)`
loop body of `getWebPageColour` (background.js lines 202-220), i.e. the
`try` block for one key.  `background.js` runs in strict mode and
`customRule` is declared `const` (line 201), so both assignments
`customRule = pref.customRule[site]` throw a TypeError before the `break`
is reached; `new URL(url)` throws when the tab URL does not parse.  Every
exception is caught by the `catch (e) { continue }` of the loop. -/
def customRuleTryBody (url site : String) : JSOutcome Unit :=
  if url = site then
    .thrown "TypeError: invalid assignment to const customRule"
  else
    match parseURL url with
    | none => .thrown "TypeError: URL constructor: invalid URL"
    | some u =>
      if u.hostname = site then
        .thrown "TypeError: invalid assignment to const customRule"
      else
        .ok ()

/-- The whole custom-rule matching loop; `acc` is the value of the
`customRule` binding (initialised to `null`).  A thrown iteration is caught
and the loop continues with the next key. -/
def customRuleLoopE (rules : List (String × String)) (url : String)
    (acc : Option String) : JSOutcome (Option String) :=
  match rules with
  | [] => .ok acc
  | (site, _v) :: rest =>
    match customRuleTryBody url site with
    | .thrown _ => customRuleLoopE rest url acc   -- catch (e) { continue; }
    | .ok _ => customRuleLoopE rest url acc       -- fell through the loop body

/-- The custom rule value that ends up in the `COLOUR_REQUEST` configuration
(the value of the `customRule` binding after the loop). -/
def resolveCustomRule (rules : List (String × String)) (url : String) : Option String :=
  match customRuleLoopE rules url none with
  | .ok v => v
  | .thrown _ => none   -- unreachable: every iteration catches its exception

/-- The behaviour the claim describes for custom-rule matching: the value of
the first entry whose key equals the tab URL exactly or equals the URL's
hostname exactly, `null` when nothing matches. -/
def claimedCustomRule (rules : List (String × String)) (url : String) : Option String :=
  match rules with
  | [] => none
  | (site, v) :: rest =>
    if url = site then some v
    else
      match parseURL url with
      | some u => if u.hostname = site then some v else claimedCustomRule rest url
      | none => claimedCustomRule rest url

/-- A browser tab, restricted to the fields `background.js` reads. -/
structure Tab where
  id : Nat
  windowId : Nat
  url : String
  title : String
  favIconUrl : Option String
  active : Bool
deriving DecidableEq

/-- The `conf` object sent with the `COLOUR_REQUEST` message
(background.js lines 221-228). -/
structure ColourRequestConf where
  dynamic : Bool
  noThemeColour : Bool
  customRule : Option String
deriving DecidableEq

/-- Embeds `getWebPageColour` (background.js lines 199-250).  The optional
`tab?` argument reflects that the function can be called with no argument
(`handleMessage` does so); `const url = tab.url` then throws.  The page
collaborator's reply to the `COLOUR_REQUEST` message is the external
`response` parameter (`none` is an unreachable/empty response).  The
PLAINTEXT test `url.match(new RegExp("https?:\\/\\/" + tab.title + "$"))`
is delegated to the platform engine `rx`; a SyntaxError thrown by the
unguarded `new RegExp` propagates out of the function. -/
def getWebPageColour (rx : RegExpSemantics) (pref : Prefs) (tab? : Option Tab)
    (response : Option RGBA) : JSOutcome (ColourRequestConf × ColourInput) :=
  match tab? with
  | none => .thrown "TypeError: tab is undefined"   -- const url = tab.url
  | some tab =>
    match customRuleLoopE pref.customRule tab.url none with
    | .thrown e => .thrown e
    | .ok customRule =>
      -- browser.tabs.sendMessage(tab.id, { reason: COLOUR_REQUEST, conf }) -> response
      match response with
      | some colour => .ok (⟨pref.dynamic, pref.noThemeColour, customRule⟩, .literal colour)
      | none =>
        if strStartsWith tab.url "data:image" then
          .ok (⟨pref.dynamic, pref.noThemeColour, customRule⟩, .token .IMAGEVIEWER)
        else if strEndsWith tab.url ".pdf" ∨ strEndsWith tab.title ".pdf" then
          .ok (⟨pref.dynamic, pref.noThemeColour, customRule⟩, .token .PDFVIEWER)
        else if (tab.favIconUrl.map (fun f => strStartsWith f "chrome:")).getD false then
          .ok (⟨pref.dynamic, pref.noThemeColour, customRule⟩, .token .DEFAULT)
        else
          -- url.match(new RegExp("https?:\\/\\/" + tab.title + "$")): the title
          -- is interpolated as a regular-expression pattern; the construction
          -- itself can throw, and nothing here catches it.
          match rx.test tab.url tab.title with
          | .thrown e => .thrown e
          | .ok b =>
            if b then
              .ok (⟨pref.dynamic, pref.noThemeColour, customRule⟩, .token .PLAINTEXT)
            else
              .ok (⟨pref.dynamic, pref.noThemeColour, customRule⟩, .token .FALLBACK)

/-- The last-resort heuristic chain as the claim states it: the PLAINTEXT
step fires when the URL textually equals an http(s) URL formed from the
page title. -/
def claimedHeuristic (tab : Tab) : ColourToken :=
  if strStartsWith tab.url "data:image" then .IMAGEVIEWER
  else if strEndsWith tab.url ".pdf" ∨ strEndsWith tab.title ".pdf" then .PDFVIEWER
  else if (tab.favIconUrl.map (fun f => strStartsWith f "chrome:")).getD false then .DEFAULT
  else if tab.url = "http://" ++ tab.title ∨ tab.url = "https://" ++ tab.title then .PLAINTEXT
  else .FALLBACK

/-- The last-resort heuristic chain as the amended claim states it, for a
tab whose title is free of regular-expression metacharacters (the only
titles the platform pattern is specified to match literally): the
PLAINTEXT step fires when the URL ends with an http(s) URL formed from the
page title, since the source regular expression has no start anchor. -/
def amendedHeuristic (tab : Tab) : ColourToken :=
  if strStartsWith tab.url "data:image" then .IMAGEVIEWER
  else if strEndsWith tab.url ".pdf" ∨ strEndsWith tab.title ".pdf" then .PDFVIEWER
  else if (tab.favIconUrl.map (fun f => strStartsWith f "chrome:")).getD false then .DEFAULT
  else if strEndsWith tab.url ("http://" ++ tab.title) ∨
      strEndsWith tab.url ("https://" ++ tab.title) then .PLAINTEXT
  else .FALLBACK

/-- An inbound runtime message, restricted to the fields `handleMessage`
reads. -/
structure Message where
  reason : Option String
  responseColour : Option RGBA
deriving DecidableEq

/-- The sender of an inbound runtime message. -/
structure Sender where
  tab : Option Tab
deriving DecidableEq

/-- What `handleMessage` ends up doing, one constructor per observable
behaviour. -/
inductive HandleOutcome where
  | ranInitialise
  | ranPrefUpdate
  | appliedWebColour (windowId : Nat) (result : ColourRequestConf × ColourInput)
  | scriptError (e : String)
  | appliedColour (windowId : Nat) (c : Option RGBA)
  | ranUpdate
deriving DecidableEq

/-- Embeds `handleMessage` (background.js lines 141-154).  The
`SCRIPT_LOADED` action calls `getWebPageColour()` with no argument
(line 146), which is embedded as `getWebPageColour rx pref none response`. -/
def handleMessage (rx : RegExpSemantics) (pref : Prefs) (message : Message) (sender : Sender)
    (response : Option RGBA) : HandleOutcome :=
  match sender.tab with
  | none => .ranUpdate
  | some tab =>
    if tab.active &&
        (message.reason.map
          (fun r => ["INIT_REQUEST", "UPDATE_REQUEST", "SCRIPT_LOADED", "COLOUR_UPDATE"].contains r)).getD false then
      match message.reason with
      | some "INIT_REQUEST" => .ranInitialise
      | some "UPDATE_REQUEST" => .ranPrefUpdate
      | some "SCRIPT_LOADED" =>
        match getWebPageColour rx pref none response with
        | .ok r => .appliedWebColour tab.windowId r
        | .thrown e => .scriptError e
      | some "COLOUR_UPDATE" => .appliedColour tab.windowId message.responseColour
      | _ => .ranUpdate   -- unreachable under the membership guard
    else
      .ranUpdate

/-- The foreground reference colour of a scheme: pure black for the light
scheme, pure white for the dark scheme. -/
def schemeReference (s : String) : RGBA := if s = "light" then black else white

/-- The configured minimum contrast of a scheme. -/
def schemeMinimum (pref : Prefs) (s : String) : ℚ :=
  if s = "light" then pref.minContrast_light else pref.minContrast_dark

/-- The maximum achievable contrast ratio (black against white): `21`. -/
def maxAchievableContrast : ℚ := 21

/-- The maximally-dimmed boundary value of a scheme: white for light
(dimming towards white), black for dark (dimming towards black). -/
def boundaryColour (s : String) : RGBA := if s = "light" then white else black

/-- Claim C1 as stated, at one input: the corrected colour's contrast ratio
against the scheme's foreground reference meets the configured minimum,
except when that minimum exceeds the maximum achievable ratio, in which case
the result is the maximally-dimmed boundary value. -/
def C1Statement (pref : Prefs) (cur : Current) (c : RGBA) : Prop :=
  ∃ c' s', contrastCorrection pref cur c = some (c', s') ∧
    (schemeMinimum pref s' ≤ maxAchievableContrast →
      schemeMinimum pref s' ≤ contrastRatioOf c' (schemeReference s')) ∧
    (maxAchievableContrast < schemeMinimum pref s' → c' = boundaryColour s')

/-- A preference bundle with all numeric fields zero and no custom rules. -/
def basePrefs : Prefs :=
  ⟨false, 0, 0, false, false, 0, 0, 0, 0, 0, 0, 0, 0, 0, 0, 0, []⟩

/-- A `current` state for the light scheme with default home/fallback
colours. -/
def baseCurrent : Current :=
  ⟨"light", white, ⟨30, 30, 30, 1⟩, white, ⟨30, 30, 30, 1⟩⟩

lemma relativeLuminance_nonneg {c : RGBA} (hc : InRange c) : 0 ≤ relativeLuminance c := by
  obtain ⟨h1, _h2, h3, _h4, h5, _h6⟩ := hc
  unfold relativeLuminance
  apply div_nonneg _ (by norm_num)
  linarith

lemma relativeLuminance_le_255 {c : RGBA} (hc : InRange c) : relativeLuminance c ≤ 255 := by
  obtain ⟨_h1, h2, _h3, h4, _h5, h6⟩ := hc
  unfold relativeLuminance
  rw [div_le_iff₀ (by norm_num : (0:ℚ) < 10000)]
  linarith

lemma relativeLuminance_mono {c1 c2 : RGBA} (hr : c1.r ≤ c2.r) (hg : c1.g ≤ c2.g)
    (hb : c1.b ≤ c2.b) : relativeLuminance c1 ≤ relativeLuminance c2 := by
  unfold relativeLuminance
  exact (div_le_div_iff_of_pos_right (by norm_num)).mpr (by linarith)

lemma lum_black : relativeLuminance black = 0 := by norm_num [relativeLuminance, black]

lemma lum_white : relativeLuminance white = 255 := by norm_num [relativeLuminance, white]

lemma clampChannel_eq_self {x : ℚ} (h0 : 0 ≤ x) (h255 : x ≤ 255) : clampChannel x = x := by
  unfold clampChannel
  rw [min_eq_right h255, max_eq_right h0]

lemma clampChannel_le {x : ℚ} (h0 : 0 ≤ x) : clampChannel x ≤ x := by
  unfold clampChannel
  rw [max_eq_right (le_min (by norm_num) h0)]
  exact min_le_right _ _

lemma le_clampChannel {a x : ℚ} (hax : a ≤ x) (ha : a ≤ 255) : a ≤ clampChannel x :=
  le_trans (le_min ha hax) (le_max_right 0 _)

lemma clampChannel_nonneg (x : ℚ) : 0 ≤ clampChannel x := le_max_left 0 _

lemma clampChannel_le_255 (x : ℚ) : clampChannel x ≤ 255 :=
  max_le (by norm_num) (min_le_left _ _)

lemma rgba_inRange (c : RGBA) : InRange (rgba c) :=
  ⟨clampChannel_nonneg _, clampChannel_le_255 _, clampChannel_nonneg _,
    clampChannel_le_255 _, clampChannel_nonneg _, clampChannel_le_255 _⟩

lemma rgba_eq_self {c : RGBA} (hc : InRange c) : rgba c = c := by
  obtain ⟨h1, h2, h3, h4, h5, h6⟩ := hc
  unfold rgba
  cases c
  simp only [RGBA.mk.injEq]
  exact ⟨clampChannel_eq_self h1 h2, clampChannel_eq_self h3 h4, clampChannel_eq_self h5 h6, trivial⟩

lemma rgba_black : rgba black = black := rgba_eq_self (by norm_num [InRange, black])

lemma rgba_white : rgba white = white := rgba_eq_self (by norm_num [InRange, white])

lemma contrastRatioOf_black {c : RGBA} (h0 : 0 ≤ relativeLuminance c) :
    contrastRatioOf c black = (relativeLuminance c + 51 / 4) / (51 / 4) := by
  unfold contrastRatioOf
  rw [lum_black]
  rcases lt_or_eq_of_le h0 with h | h
  · rw [if_pos h]
    norm_num
  · rw [if_neg (by rw [← h]; norm_num), ← h]
    norm_num

lemma contrastRatioOf_white {c : RGBA} (h255 : relativeLuminance c ≤ 255) :
    contrastRatioOf c white = (1071 / 4) / (relativeLuminance c + 51 / 4) := by
  unfold contrastRatioOf
  rw [lum_white, if_neg (not_lt.mpr h255)]
  norm_num

lemma customRuleLoopE_eq_ok (rules : List (String × String)) (url : String)
    (acc : Option String) : customRuleLoopE rules url acc = .ok acc := by
  induction rules with
  | nil => rfl
  | cons kv rest ih =>
    obtain ⟨site, v⟩ := kv
    unfold customRuleLoopE
    cases customRuleTryBody url site <;> exact ih

/-- Claim C9: under the precondition that the current scheme is "light" or
"dark", `contrastCorrection` is total — it returns a defined colour/scheme
pair for every input colour, and the implicit `undefined` fall-through past
its final branch is unreachable. -/
theorem contrastCorrection_total (pref : Prefs) (cur : Current) (c : RGBA)
    (hs : cur.scheme = "light" ∨ cur.scheme = "dark") :
    (contrastCorrection pref cur c).isSome = true := by
  unfold contrastCorrection
  split_ifs with h1 h2 h3 h4 <;> try rfl
  rcases hs with h | h
  · exact absurd h h3
  · exact absurd h h4

/-- Witness for claim C9 at a concrete input. -/
theorem contrastCorrection_total_witness :
    (contrastCorrection basePrefs baseCurrent ⟨120, 120, 120, 1⟩).isSome = true :=
  contrastCorrection_total basePrefs baseCurrent ⟨120, 120, 120, 1⟩ (Or.inl rfl)

/-- Claim C5: in `setFrameColour`, a colour-code (string) input is never
passed through `contrastCorrection`, and a literal colour input is always
the result of `contrastCorrection`. -/
theorem setFrameColour_correction_invariant (pref : Prefs) (cur : Current)
    (t : ColourToken) (c : RGBA) :
    usedCorrection (setFrameColour pref cur (.token t)) = false ∧
    setFrameColour pref cur (.literal c) =
      (contrastCorrection pref cur c).map (fun q => ⟨q.1, q.2, true⟩) := by
  refine ⟨?_, rfl⟩
  simp only [setFrameColour]
  cases h1 : colourCode cur t cur.scheme with
  | some c1 => simp [usedCorrection, h1]
  | none =>
    cases h2 : colourCode cur t (reversedScheme cur.scheme) with
    | some c2 =>
      cases hA : pref.allowDarkLight with
      | true => simp [usedCorrection, h1, h2, hA]
      | false =>
        cases h3 : colourCode cur .FALLBACK cur.scheme <;> simp [usedCorrection, h1, h2, hA, h3]
    | none =>
      cases h3 : colourCode cur .FALLBACK cur.scheme <;>
        cases hA : pref.allowDarkLight <;> simp [usedCorrection, h1, h2, hA, h3]

/-- Claim C10: for a colour code with no colour for the current scheme, the
reversed-scheme colour is applied under the reversed scheme when it exists
and "allow opposite scheme" is set; otherwise the FALLBACK colour of the
current scheme is applied under the current scheme. -/
theorem setFrameColour_token_fallback (pref : Prefs) (cur : Current) (t : ColourToken)
    (hs : cur.scheme = "light" ∨ cur.scheme = "dark")
    (hnone : colourCode cur t cur.scheme = none) :
    (∀ c, colourCode cur t (reversedScheme cur.scheme) = some c → pref.allowDarkLight = true →
      setFrameColour pref cur (.token t) = some ⟨c, reversedScheme cur.scheme, false⟩) ∧
    ((colourCode cur t (reversedScheme cur.scheme) = none ∨ pref.allowDarkLight = false) →
      setFrameColour pref cur (.token t) =
        some ⟨(if cur.scheme = "light" then cur.fallbackColour_light else cur.fallbackColour_dark),
          cur.scheme, false⟩) := by
  have hfb : colourCode cur .FALLBACK cur.scheme =
      some (if cur.scheme = "light" then cur.fallbackColour_light else cur.fallbackColour_dark) := by
    rcases hs with h | h <;> rw [h] <;> rfl
  constructor
  · intro c hrev hallow
    simp [setFrameColour, hnone, hrev, hallow]
  · intro h
    rcases h with hrev | hallow
    · simp [setFrameColour, hnone, hrev, hfb]
    · cases hrev2 : colourCode cur t (reversedScheme cur.scheme) <;>
        simp [setFrameColour, hnone, hallow, hrev2, hfb]

/-- Witness for claim C10: IMAGEVIEWER has no light colour; with the light
scheme current and "allow opposite scheme" set, its dark colour is applied
under the dark scheme. -/
theorem setFrameColour_token_fallback_witness :
    setFrameColour { basePrefs with allowDarkLight := true } baseCurrent (.token .IMAGEVIEWER) =
      some ⟨rgba ⟨33, 33, 33, 1⟩, reversedScheme baseCurrent.scheme, false⟩ :=
  (setFrameColour_token_fallback { basePrefs with allowDarkLight := true } baseCurrent
    .IMAGEVIEWER (Or.inl rfl) rfl).1 (rgba ⟨33, 33, 33, 1⟩) rfl rfl

/-- Claim C7: for an `about:` page pathname, classification returns the
about-page table's colour for the current scheme when present, otherwise the
reversed scheme's colour when present and "allow opposite scheme" is set,
otherwise the DEFAULT colour code. -/
theorem aboutPageColour_cascade (pref : Prefs) (cur : Current)
    (table : String → String → Option RGBA) (pathname : String) :
    (∀ c, table pathname cur.scheme = some c →
      getAboutPageColour pref cur table pathname = .literal (rgba c)) ∧
    (table pathname cur.scheme = none →
      ∀ c, table pathname (reversedScheme cur.scheme) = some c → pref.allowDarkLight = true →
        getAboutPageColour pref cur table pathname = .literal (rgba c)) ∧
    (table pathname cur.scheme = none →
      (table pathname (reversedScheme cur.scheme) = none ∨ pref.allowDarkLight = false) →
        getAboutPageColour pref cur table pathname = .token .DEFAULT) := by
  refine ⟨?_, ?_, ?_⟩
  · intro c h
    simp [getAboutPageColour, h]
  · intro hnone c hrev hallow
    simp [getAboutPageColour, hnone, hrev, hallow]
  · intro hnone h
    rcases h with hrev | hallow
    · simp [getAboutPageColour, hnone, hrev]
    · cases hrev2 : table pathname (reversedScheme cur.scheme) <;>
        simp [getAboutPageColour, hnone, hallow, hrev2]

/-- Witness for claim C7: `about:crashparent` with no entry in the table and
"allow opposite scheme" unset classifies as DEFAULT. -/
theorem aboutPageColour_cascade_witness :
    getAboutPageColour basePrefs baseCurrent (fun _ _ => none) "crashparent" = .token .DEFAULT :=
  (aboutPageColour_cascade basePrefs baseCurrent (fun _ _ => none) "crashparent").2.2
    rfl (Or.inl rfl)

/-- Claim C8: custom-rule matching never throws, even when the rule map
contains a key that is not a valid URL — the offending rule is skipped and
the lookup over the remaining rules still completes. -/
theorem customRuleLookup_never_throws (rules : List (String × String)) (url : String)
    (bad : String × String) (_hbad : parseURL bad.1 = none) :
    (∃ r, customRuleLoopE (bad :: rules) url none = .ok r) ∧
    customRuleLoopE (bad :: rules) url none = customRuleLoopE rules url none := by
  refine ⟨⟨none, customRuleLoopE_eq_ok _ url none⟩, ?_⟩
  rw [customRuleLoopE_eq_ok, customRuleLoopE_eq_ok]

/-- Witness for claim C8 at a concrete rule map containing a key that is not
a valid URL. -/
theorem customRuleLookup_never_throws_witness :
    (∃ r, customRuleLoopE (("not a url", "#000000") :: [("example.com", "#ff0000")])
        "https://example.com/a" none = .ok r) ∧
    customRuleLoopE (("not a url", "#000000") :: [("example.com", "#ff0000")])
        "https://example.com/a" none =
      customRuleLoopE [("example.com", "#ff0000")] "https://example.com/a" none :=
  customRuleLookup_never_throws [("example.com", "#ff0000")] "https://example.com/a"
    ("not a url", "#000000") (by decide)

/-- Claim C2 (code bug): with a custom rule whose key equals the tab URL's
hostname, the `COLOUR_REQUEST` configuration still carries a `null` custom
rule — the `const`-declared `customRule` binding can never be assigned, so
the loop resolves nothing — although the claimed behaviour (first entry
matching the full URL or the hostname) resolves the rule's value. -/
theorem customRule_const_assignment_bug :
    getWebPageColour literalRegExp { basePrefs with customRule := [("example.com", "#ff0000")] }
        (some ⟨1, 1, "https://example.com/", "Example", none, true⟩) (some ⟨10, 10, 10, 1⟩) =
      .ok (⟨false, false, none⟩, .literal ⟨10, 10, 10, 1⟩) ∧
    claimedCustomRule [("example.com", "#ff0000")] "https://example.com/" = some "#ff0000" :=
  ⟨by decide, by decide⟩

/-- Claim C3 (code bug): a `SCRIPT_LOADED` message from an active sender tab
makes the handler call the page-colour fetch with no tab argument, so it
throws reading `tab.url` of `undefined` and never applies a colour; an
inactive sender or an unknown reason triggers the generic recompute. -/
theorem handleMessage_scriptLoaded_bug :
    handleMessage literalRegExp basePrefs ⟨some "SCRIPT_LOADED", none⟩
        ⟨some ⟨7, 42, "https://example.com/", "Example", none, true⟩⟩ (some ⟨10, 10, 10, 1⟩) =
      .scriptError "TypeError: tab is undefined" ∧
    (∀ w r, handleMessage literalRegExp basePrefs ⟨some "SCRIPT_LOADED", none⟩
        ⟨some ⟨7, 42, "https://example.com/", "Example", none, true⟩⟩ (some ⟨10, 10, 10, 1⟩) ≠
      .appliedWebColour w r) ∧
    handleMessage literalRegExp basePrefs ⟨some "SCRIPT_LOADED", none⟩
        ⟨some ⟨7, 42, "https://example.com/", "Example", none, false⟩⟩ (some ⟨10, 10, 10, 1⟩) =
      .ranUpdate ∧
    handleMessage literalRegExp basePrefs ⟨some "OTHER_REASON", none⟩
        ⟨some ⟨7, 42, "https://example.com/", "Example", none, true⟩⟩ (some ⟨10, 10, 10, 1⟩) =
      .ranUpdate := by
  have hEq : handleMessage literalRegExp basePrefs ⟨some "SCRIPT_LOADED", none⟩
      ⟨some ⟨7, 42, "https://example.com/", "Example", none, true⟩⟩ (some ⟨10, 10, 10, 1⟩) =
      .scriptError "TypeError: tab is undefined" := by decide
  refine ⟨hEq, ?_, by decide, by decide⟩
  intro w r h
  rw [hEq] at h
  exact HandleOutcome.noConfusion h

/-- Claim C4 (counterexample): the last-resort PLAINTEXT heuristic fires on a
URL that merely ends with `https://` followed by the title, where the claim
(textual equality with an http(s) URL formed from the title) would give
FALLBACK.  The title `"t"` is free of regular-expression metacharacters, so
every admissible platform engine gives this match result. -/
theorem webPageColour_title_match_counterexample :
    regexMetaFree "t" = true ∧
    getWebPageColour literalRegExp basePrefs (some ⟨1, 1, "xhttps://t", "t", none, true⟩) none =
      .ok (⟨false, false, none⟩, .token .PLAINTEXT) ∧
    claimedHeuristic ⟨1, 1, "xhttps://t", "t", none, true⟩ = .FALLBACK :=
  ⟨by decide, by decide, by decide⟩

/-- Claim C4 (amended): when the page collaborator gives no response and the
tab title is free of regular-expression metacharacters, the classifier
applies the heuristic chain in order — data-image prefix, `.pdf` suffix on
URL or title, chrome-scheme favicon, URL ending with an http(s) URL formed
from the title (the source pattern is anchored only at the end), FALLBACK —
whatever the platform engine does on the unpinned titles. -/
theorem webPageColour_heuristic_chain (rx : RegExpSemantics) (pref : Prefs) (tab : Tab)
    (hmeta : regexMetaFree tab.title = true) :
    ∃ conf, getWebPageColour rx pref (some tab) none = .ok (conf, .token (amendedHeuristic tab)) := by
  refine ⟨⟨pref.dynamic, pref.noThemeColour, none⟩, ?_⟩
  simp only [getWebPageColour, amendedHeuristic]
  rw [customRuleLoopE_eq_ok, rx.meta_free_spec tab.url tab.title hmeta]
  simp only [literalRegExpTest, Bool.or_eq_true]
  split_ifs <;> rfl

/-- Witness for the amended claim C4 at a concrete metacharacter-free
title. -/
theorem webPageColour_heuristic_chain_witness :
    ∃ conf, getWebPageColour literalRegExp basePrefs
        (some ⟨1, 1, "https://t2", "t2", none, true⟩) none =
      .ok (conf, .token (amendedHeuristic ⟨1, 1, "https://t2", "t2", none, true⟩)) :=
  webPageColour_heuristic_chain literalRegExp basePrefs
    ⟨1, 1, "https://t2", "t2", none, true⟩ (by decide)

/-- Claim C6: the generated palette dims the base colour by
`-coefficient * 1.5` per surface in the light scheme and by `+coefficient`
in the dark scheme, with border surfaces combining their coefficients
additively; in particular the dark palette's `toolbar` key is the base
dimmed by the toolbar coefficient. -/
theorem applyTheme_dimming_formulas (pref : Prefs) (c : RGBA) :
    (∃ th, applyTheme pref c "light" = some th ∧
      th.frame = .dimmed (dimColour c (-(pref.tabbar) * 1.5)) ∧
      th.frame_inactive = .dimmed (dimColour c (-(pref.tabbar) * 1.5)) ∧
      th.tab_selected = .dimmed (dimColour c (-(pref.tabSelected) * 1.5)) ∧
      th.toolbar = .dimmed (dimColour c (-(pref.toolbar) * 1.5)) ∧
      th.toolbar_bottom_separator = .dimmed (dimColour c (-(pref.toolbarBorder + pref.toolbar) * 1.5)) ∧
      th.toolbar_field = .dimmed (dimColour c (-(pref.toolbarField) * 1.5)) ∧
      th.toolbar_field_focus = .dimmed (dimColour c (-(pref.toolbarFieldOnFocus) * 1.5)) ∧
      th.sidebar = .dimmed (dimColour c (-(pref.sidebar) * 1.5)) ∧
      th.sidebar_border = .dimmed (dimColour c (-(pref.sidebar + pref.sidebarBorder) * 1.5)) ∧
      th.popup = .dimmed (dimColour c (-(pref.popup) * 1.5)) ∧
      th.popup_border = .dimmed (dimColour c (-(pref.popup + pref.popupBorder) * 1.5))) ∧
    (∃ th, applyTheme pref c "dark" = some th ∧
      th.frame = .dimmed (dimColour c pref.tabbar) ∧
      th.frame_inactive = .dimmed (dimColour c pref.tabbar) ∧
      th.tab_selected = .dimmed (dimColour c pref.tabSelected) ∧
      th.toolbar = .dimmed (dimColour c pref.toolbar) ∧
      th.toolbar_bottom_separator = .dimmed (dimColour c (pref.toolbarBorder + pref.toolbar)) ∧
      th.toolbar_field = .dimmed (dimColour c pref.toolbarField) ∧
      th.toolbar_field_border = .dimmed (dimColour c pref.toolbarFieldBorder) ∧
      th.toolbar_field_focus = .dimmed (dimColour c pref.toolbarFieldOnFocus) ∧
      th.sidebar = .dimmed (dimColour c pref.sidebar) ∧
      th.sidebar_border = .dimmed (dimColour c (pref.sidebar + pref.sidebarBorder)) ∧
      th.popup = .dimmed (dimColour c pref.popup) ∧
      th.popup_border = .dimmed (dimColour c (pref.popup + pref.popupBorder))) := by
  constructor
  · refine ⟨lightThemeColours pref c, rfl, rfl, rfl, rfl, rfl,
      congrArg (fun d => ThemeValue.dimmed (dimColour c d)) (by ring), rfl, rfl, rfl,
      congrArg (fun d => ThemeValue.dimmed (dimColour c d)) (by ring), rfl,
      congrArg (fun d => ThemeValue.dimmed (dimColour c d)) (by ring)⟩
  · exact ⟨darkThemeColours pref c, rfl, rfl, rfl, rfl, rfl, rfl, rfl, rfl, rfl, rfl, rfl, rfl, rfl⟩

lemma schemeReference_light : schemeReference "light" = black := by
  unfold schemeReference
  rw [if_pos rfl]

lemma schemeReference_dark : schemeReference "dark" = white := by
  unfold schemeReference
  rw [if_neg (by decide)]

lemma schemeMinimum_light (pref : Prefs) : schemeMinimum pref "light" = pref.minContrast_light := by
  unfold schemeMinimum
  rw [if_pos rfl]

lemma schemeMinimum_dark (pref : Prefs) : schemeMinimum pref "dark" = pref.minContrast_dark := by
  unfold schemeMinimum
  rw [if_neg (by decide)]

/-- Claim C1 (counterexample): with the light scheme current, a minimum
contrast of 2 and pure black as input, `contrastCorrection` returns black
unchanged (the computed dim factor is zero), whose contrast ratio against
black is 1 < 2, although 2 is well below the maximum achievable ratio 21. -/
theorem contrastCorrection_claim_counterexample :
    ¬ C1Statement { basePrefs with minContrast_light := 2, minContrast_dark := 9 / 2 }
        baseCurrent black := by
  intro h
  obtain ⟨c', s', heq, h1, _h2⟩ := h
  have hval : contrastCorrection
      { basePrefs with minContrast_light := 2, minContrast_dark := 9 / 2 } baseCurrent black =
      some (black, "light") := by
    norm_num [contrastCorrection, contrastRatioOf, relativeLuminance, basePrefs, baseCurrent,
      black, white, rgba, clampChannel, min_def, max_def, dimColour]
    decide
  rw [hval] at heq
  simp only [Option.some.injEq, Prod.mk.injEq] at heq
  obtain ⟨hc', hs'⟩ := heq
  subst hc'
  subst hs'
  have hmin : schemeMinimum { basePrefs with minContrast_light := 2, minContrast_dark := 9 / 2 }
      "light" = 2 := by norm_num [schemeMinimum]
  rw [hmin] at h1
  have hcr : contrastRatioOf black (schemeReference "light") = 1 := by
    norm_num [schemeReference, contrastRatioOf, relativeLuminance, black]
  rw [hcr] at h1
  have := h1 (by norm_num [maxAchievableContrast])
  norm_num at this

/-- Claim C1 (amended): for every in-range colour and a light or dark
current scheme, `contrastCorrection` either returns the colour unchanged
with a scheme whose eligibility test it passes — its contrast ratio against
that scheme's foreground reference then strictly exceeds the configured
minimum — or returns a dimmed colour whose contrast ratio against the
returned scheme's reference has moved weakly towards, but not beyond, the
configured minimum. -/
theorem contrastCorrection_contract (pref : Prefs) (cur : Current) (c : RGBA)
    (hc : InRange c) (hs : cur.scheme = "light" ∨ cur.scheme = "dark") :
    ∃ c' s', contrastCorrection pref cur c = some (c', s') ∧
      ((c' = c ∧ schemeMinimum pref s' < contrastRatioOf c' (schemeReference s')) ∨
       (contrastRatioOf c (schemeReference s') ≤ contrastRatioOf c' (schemeReference s') ∧
        contrastRatioOf c' (schemeReference s') ≤ schemeMinimum pref s')) := by
  have h0 : 0 ≤ relativeLuminance c := relativeLuminance_nonneg hc
  have h255 : relativeLuminance c ≤ 255 := relativeLuminance_le_255 hc
  have hden : (0:ℚ) < relativeLuminance c + 51 / 4 := by linarith
  have hb' : contrastRatioOf c black = (relativeLuminance c + 51 / 4) / (51 / 4) :=
    contrastRatioOf_black h0
  have hw' : contrastRatioOf c white = (1071 / 4) / (relativeLuminance c + 51 / 4) :=
    contrastRatioOf_white h255
  unfold contrastCorrection
  split_ifs with h1 h2 h3 h4
  · -- light-eligible branch: the colour is returned unchanged
    refine ⟨c, "light", rfl, Or.inl ⟨rfl, ?_⟩⟩
    rw [rgba_black] at h1
    rw [schemeMinimum_light, schemeReference_light]
    exact h1.1
  · -- dark-eligible branch: the colour is returned unchanged
    refine ⟨c, "dark", rfl, Or.inl ⟨rfl, ?_⟩⟩
    rw [rgba_white] at h2
    rw [schemeMinimum_dark, schemeReference_dark]
    exact h2.1
  · -- light dimming branch
    rw [rgba_black, hb']
    refine ⟨_, "light", rfl, Or.inr ?_⟩
    rw [schemeMinimum_light, schemeReference_light]
    have hnel : ¬ pref.minContrast_light < contrastRatioOf c (rgba black) := fun hl => h1 ⟨hl, Or.inl h3⟩
    rw [rgba_black] at hnel
    have hle : contrastRatioOf c black ≤ pref.minContrast_light := not_lt.mp hnel
    have hle' : (relativeLuminance c + 51 / 4) / (51 / 4) ≤ pref.minContrast_light := by
      rw [← hb']; exact hle
    have hkey : relativeLuminance c + 51 / 4 ≤ pref.minContrast_light * (51 / 4) := by
      rw [div_le_iff₀ (by norm_num : (0:ℚ) < 51 / 4)] at hle'
      linarith
    rcases eq_or_lt_of_le h255 with h255e | h255l
    · -- luminance exactly 255: the dim factor divides by zero and is 0 here
      have hdz : ((pref.minContrast_light / ((relativeLuminance c + 51 / 4) / (51 / 4)) - 1) *
          relativeLuminance c) / (255 - relativeLuminance c) = 0 := by
        rw [h255e]
        norm_num
      rw [hdz]
      have hdc : dimColour c 0 = c := by unfold dimColour; norm_num
      rw [hdc, rgba_eq_self hc]
      exact ⟨le_refl _, hle⟩
    · -- luminance strictly below 255
      have hcr_pos : (0:ℚ) < (relativeLuminance c + 51 / 4) / (51 / 4) :=
        div_pos hden (by norm_num)
      have hq1 : 1 ≤ pref.minContrast_light / ((relativeLuminance c + 51 / 4) / (51 / 4)) :=
        (one_le_div hcr_pos).mpr hle'
      set L := relativeLuminance c with hLdef
      set q := pref.minContrast_light / ((L + 51 / 4) / (51 / 4)) with hqdef
      set d := ((q - 1) * L) / (255 - L) with hddef
      have hsub : (0:ℚ) < 255 - L := by linarith
      have hd0 : 0 ≤ d := div_nonneg (mul_nonneg (by linarith) h0) hsub.le
      have hdmul : d * (255 - L) = (q - 1) * L := div_mul_cancel₀ _ (ne_of_gt hsub)
      have hqL : q * (L + 51 / 4) = pref.minContrast_light * (51 / 4) := by
        rw [hqdef, div_div_eq_mul_div]
        exact div_mul_cancel₀ _ (ne_of_gt hden)
      rcases eq_or_lt_of_le hd0 with hdz | hdp
      · rw [← hdz]
        have hdc : dimColour c 0 = c := by unfold dimColour; norm_num
        rw [hdc, rgba_eq_self hc]
        exact ⟨le_refl _, hle⟩
      · obtain ⟨hr0, hr1, hg0, hg1, hb0, hb1⟩ := hc
        have hdim : dimColour c d =
            ⟨c.r + d * (255 - c.r), c.g + d * (255 - c.g), c.b + d * (255 - c.b), c.a⟩ := by
          unfold dimColour
          rw [if_pos hdp]
        rw [hdim]
        have hlow_r : c.r ≤ clampChannel (c.r + d * (255 - c.r)) :=
          le_clampChannel (by nlinarith) hr1
        have hlow_g : c.g ≤ clampChannel (c.g + d * (255 - c.g)) :=
          le_clampChannel (by nlinarith) hg1
        have hlow_b : c.b ≤ clampChannel (c.b + d * (255 - c.b)) :=
          le_clampChannel (by nlinarith) hb1
        have hhigh_r : clampChannel (c.r + d * (255 - c.r)) ≤ c.r + d * (255 - c.r) :=
          clampChannel_le (by nlinarith)
        have hhigh_g : clampChannel (c.g + d * (255 - c.g)) ≤ c.g + d * (255 - c.g) :=
          clampChannel_le (by nlinarith)
        have hhigh_b : clampChannel (c.b + d * (255 - c.b)) ≤ c.b + d * (255 - c.b) :=
          clampChannel_le (by nlinarith)
        have hL2low : L ≤ relativeLuminance (rgba
            ⟨c.r + d * (255 - c.r), c.g + d * (255 - c.g), c.b + d * (255 - c.b), c.a⟩) := by
          rw [hLdef]
          exact relativeLuminance_mono hlow_r hlow_g hlow_b
        have hblend : relativeLuminance
            (⟨c.r + d * (255 - c.r), c.g + d * (255 - c.g), c.b + d * (255 - c.b), c.a⟩ : RGBA) =
            L + d * (255 - L) := by
          rw [hLdef]
          unfold relativeLuminance
          field_simp
          ring
        have hL2high : relativeLuminance (rgba
            ⟨c.r + d * (255 - c.r), c.g + d * (255 - c.g), c.b + d * (255 - c.b), c.a⟩) ≤
            L + d * (255 - L) := by
          rw [← hblend]
          exact relativeLuminance_mono hhigh_r hhigh_g hhigh_b
        have hL2 : 0 ≤ relativeLuminance (rgba
            ⟨c.r + d * (255 - c.r), c.g + d * (255 - c.g), c.b + d * (255 - c.b), c.a⟩) :=
          relativeLuminance_nonneg (rgba_inRange _)
        have hcrc2 : contrastRatioOf (rgba
            ⟨c.r + d * (255 - c.r), c.g + d * (255 - c.g), c.b + d * (255 - c.b), c.a⟩) black =
            (relativeLuminance (rgba
              ⟨c.r + d * (255 - c.r), c.g + d * (255 - c.g), c.b + d * (255 - c.b), c.a⟩) +
              51 / 4) / (51 / 4) :=
          contrastRatioOf_black hL2
        constructor
        · rw [hb', hcrc2]
          exact (div_le_div_iff_of_pos_right (by norm_num)).mpr (by linarith)
        · rw [hcrc2, div_le_iff₀ (by norm_num : (0:ℚ) < 51 / 4)]
          have hup : relativeLuminance (rgba
              ⟨c.r + d * (255 - c.r), c.g + d * (255 - c.g), c.b + d * (255 - c.b), c.a⟩) ≤
              q * L := by
            have h1' : L + d * (255 - L) = q * L := by
              rw [hdmul]
              ring
            linarith [hL2high]
          nlinarith [hq1, hqL, hup, h0,
            mul_le_mul_of_nonneg_right hq1 (by norm_num : (0:ℚ) ≤ 51 / 4)]
  · -- dark dimming branch
    rw [rgba_white, hw']
    refine ⟨_, "dark", rfl, Or.inr ?_⟩
    rw [schemeMinimum_dark, schemeReference_dark]
    have hned : ¬ pref.minContrast_dark < contrastRatioOf c (rgba white) := fun hd => h2 ⟨hd, Or.inl h4⟩
    rw [rgba_white] at hned
    have hled : contrastRatioOf c white ≤ pref.minContrast_dark := not_lt.mp hned
    have hled' : (1071 / 4) / (relativeLuminance c + 51 / 4) ≤ pref.minContrast_dark := by
      rw [← hw']; exact hled
    have hcr1 : (1:ℚ) ≤ (1071 / 4) / (relativeLuminance c + 51 / 4) :=
      (one_le_div hden).mpr (by linarith)
    have hmdpos : (0:ℚ) < pref.minContrast_dark := by linarith
    set L := relativeLuminance c with hLdef
    set k := (1071 / 4) / (L + 51 / 4) / pref.minContrast_dark with hkdef
    have hk1 : k ≤ 1 := (div_le_one hmdpos).mpr hled'
    have hk0 : 0 < k := div_pos (div_pos (by norm_num) hden) hmdpos
    rcases eq_or_lt_of_le hk1 with hke | hkl
    · -- the dim factor is zero: the colour is returned unchanged
      rw [hke]
      have hdc : dimColour c (1 - 1) = c := by unfold dimColour; norm_num
      rw [hdc, rgba_eq_self hc]
      rw [hw'] at hled ⊢
      exact ⟨le_refl _, hled⟩
    · -- the dim factor is negative: the channels shrink by the factor k
      have hdneg : k - 1 < 0 := by linarith
      have hdim : dimColour c (k - 1) = ⟨k * c.r, k * c.g, k * c.b, c.a⟩ := by
        unfold dimColour
        rw [if_neg (by linarith : ¬ (0:ℚ) < k - 1), if_pos hdneg]
        have h1k : (1:ℚ) + (k - 1) = k := by ring
        rw [h1k]
      rw [hdim]
      obtain ⟨hr0, hr1, hg0, hg1, hb0, hb1⟩ := hc
      have hinr : InRange (⟨k * c.r, k * c.g, k * c.b, c.a⟩ : RGBA) := by
        simp only [InRange]
        refine ⟨mul_nonneg hk0.le hr0, by nlinarith, mul_nonneg hk0.le hg0, by nlinarith,
          mul_nonneg hk0.le hb0, by nlinarith⟩
      rw [rgba_eq_self hinr]
      have hlum : relativeLuminance (⟨k * c.r, k * c.g, k * c.b, c.a⟩ : RGBA) = k * L := by
        rw [hLdef]
        unfold relativeLuminance
        ring
      have hkL255 : k * L ≤ 255 := by nlinarith
      have hcrc2 : contrastRatioOf (⟨k * c.r, k * c.g, k * c.b, c.a⟩ : RGBA) white =
          (1071 / 4) / (k * L + 51 / 4) := by
        rw [contrastRatioOf_white (by rw [hlum]; exact hkL255), hlum]
      have hkLpos : (0:ℚ) < k * L + 51 / 4 := by nlinarith [mul_nonneg hk0.le h0]
      constructor
      · rw [hw', hcrc2, div_le_div_iff₀ hden hkLpos]
        nlinarith
      · rw [hcrc2, div_le_iff₀ hkLpos]
        have hmk : pref.minContrast_dark * k = (1071 / 4) / (L + 51 / 4) := by
          rw [hkdef, mul_comm]
          exact div_mul_cancel₀ _ (ne_of_gt hmdpos)
        have hAcancel : (1071 / 4) / (L + 51 / 4) * (L + 51 / 4) = 1071 / 4 :=
          div_mul_cancel₀ _ (ne_of_gt hden)
        have e1 : pref.minContrast_dark * (k * L + 51 / 4) =
            (pref.minContrast_dark * k) * L + pref.minContrast_dark * (51 / 4) := by ring
        rw [e1, hmk]
        nlinarith [hAcancel, mul_le_mul_of_nonneg_right hled' (by norm_num : (0:ℚ) ≤ 51 / 4),
          mul_nonneg (le_of_lt (div_pos (show (0:ℚ) < 1071 / 4 by norm_num) hden)) h0]
  · rcases hs with h | h
    · exact absurd h h3
    · exact absurd h h4

/-- Witness for the amended claim C1 at a concrete input. -/
theorem contrastCorrection_contract_witness :
    ∃ c' s', contrastCorrection { basePrefs with minContrast_light := 1 } baseCurrent
        ⟨120, 120, 120, 1⟩ = some (c', s') ∧
      ((c' = ⟨120, 120, 120, 1⟩ ∧
        schemeMinimum { basePrefs with minContrast_light := 1 } s' <
          contrastRatioOf c' (schemeReference s')) ∨
       (contrastRatioOf ⟨120, 120, 120, 1⟩ (schemeReference s') ≤
          contrastRatioOf c' (schemeReference s') ∧
        contrastRatioOf c' (schemeReference s') ≤
          schemeMinimum { basePrefs with minContrast_light := 1 } s')) :=
  contrastCorrection_contract { basePrefs with minContrast_light := 1 } baseCurrent
    ⟨120, 120, 120, 1⟩ (by norm_num [InRange]) (Or.inl rfl)

end ATBC
